import Mathlib

/-!
Shallow embedding of `src/server.py` from the tushare-chatgpt-mcp repository.

The file embeds the request wrapper `_call_tushare`, the six-hour listing
cache `_get_stock_basic_all`, and the tool handlers `search_stocks` and
`daily`.  Python dicts over string keys are modelled as association lists
with Python's insertion-order/overwrite semantics; JSON scalars are a small
`Value` type; the HTTP transport is an explicit `TransportResult` argument
(timeout / exception / parsed body), and each function that may POST to the
upstream endpoint also returns the `Payload` it sent (`none` = no network
call was attempted).  Time (`time.time()`) is an explicit integer argument
(seconds); only differences and comparisons of timestamps occur.
-/

namespace Tushare

/-- A JSON scalar value as it appears in upstream rows. -/
inductive Value where
  | str (s : String)
  | int (n : Int)
  | null
  deriving DecidableEq, Repr

/-- Python `str()` of a scalar, used by `search_stocks` on row fields. -/
def pyStr : Value → String
  | .str s => s
  | .int n => toString n
  | .null => "None"

/-- A Python dict with string keys: an association list in insertion order. -/
abbrev Dict := List (String × Value)

/-- `d[k] = v` with Python dict semantics: overwrite in place if the key is
present, else append at the end. -/
def dictInsert (d : Dict) (k : String) (v : Value) : Dict :=
  if d.any (fun p => p.1 = k) then
    d.map (fun p => if p.1 = k then (k, v) else p)
  else
    d ++ [(k, v)]

/-- Python `dict(zip(ks, vs))`: zip truncates to the shorter list, duplicate
keys keep their first position and take the last value. -/
def dictOfZip (ks : List String) (vs : List Value) : Dict :=
  (List.zip ks vs).foldl (fun d p => dictInsert d p.1 p.2) []

/-- The key list of a dict, in insertion order. -/
def dictKeys (d : Dict) : List String := d.map (·.1)

/-- Python `d.get(k, dflt)`. -/
def dictGet (d : Dict) (k : String) (dflt : Value) : Value :=
  match d.find? (fun p => p.1 = k) with
  | some p => p.2
  | none => dflt

/-- `str(row.get(k, ""))` as used by `search_stocks`. -/
def pyGetStr (d : Dict) (k : String) : String :=
  pyStr (dictGet d k (.str ""))

/-- Python `str.lower()` (code-point-wise; ASCII letters are lowered, CJK
characters are unaffected, matching Python on the data involved here). -/
def pyLower (s : String) : String := ⟨s.data.map Char.toLower⟩

/-- Python `str.strip()`: drop leading and trailing whitespace. -/
def pyStrip (s : String) : String :=
  ⟨((s.data.dropWhile Char.isWhitespace).reverse.dropWhile Char.isWhitespace).reverse⟩

/-- Python `s.split(",")`. -/
def pySplitComma (s : String) : List String :=
  (s.data.splitOn ',').map List.asString

/-- Lexicographic comparison of character lists by code point, the order
Python uses on `str`. -/
def charListLE : List Char → List Char → Bool
  | [], _ => true
  | _ :: _, [] => false
  | a :: as, b :: bs =>
    if a.toNat < b.toNat then true
    else if b.toNat < a.toNat then false
    else charListLE as bs

/-- Python `a <= b` on strings. -/
def pyStrLE (a b : String) : Bool := charListLE a.data b.data

/-- Python truthiness of an optional string (`None` and `""` are falsy). -/
def truthyStr : Option String → Bool
  | some s => s ≠ ""
  | none => false

/-- Python `a or b` on optional strings. -/
def pyOr (a b : Option String) : Option String :=
  if truthyStr a then a else b

/-- The `data` member of an upstream body: `fields` and `items`, each
possibly `null` or missing (modelled as `none`). -/
structure DataPayload where
  fields : Option (List String)
  items : Option (List (List Value))
  deriving DecidableEq, Repr

/-- A parsed upstream response body `{code, msg, data}`; each member may be
missing/`null` (`data.get` returns `None` then). -/
structure UpstreamResponse where
  code : Option Int
  msg : Option String
  data : Option DataPayload
  deriving DecidableEq, Repr

/-- Outcome of the `httpx` round trip inside the `try` block: timeout,
some other exception (connection error, non-2xx, malformed body), or a
parsed JSON body. -/
inductive TransportResult where
  | timeout
  | exn (name msg : String)
  | ok (data : UpstreamResponse)
  deriving DecidableEq, Repr

/-- The JSON payload POSTed to the upstream endpoint; `fields` is included
only when truthy. -/
structure Payload where
  api_name : String
  token : String
  params : Dict
  fields : Option String
  deriving DecidableEq, Repr

/-- The uniform result envelope of `_call_tushare`. -/
structure Envelope where
  error : Option String
  api_name : String
  fields : Option (List String)
  rows : List Dict
  raw : Option UpstreamResponse
  deriving DecidableEq, Repr

def TUSHARE_TOKEN_ENV : String := "TUSHARE_TOKEN"

/-- The configuration-error message of `_call_tushare`. -/
def tokenMissingMsg : String :=
  "Tushare token 未配置，请在环境变量 TUSHARE_TOKEN 中设置。"

/-- The timeout message (with `DEFAULT_TIMEOUT_SECONDS = 8.0` rendered). -/
def timeoutMsg : String :=
  "Tushare 接口调用超时（>8.0s），请缩短查询区间或稍后重试。"

/-- `f"... {type(e).__name__}: {e}"` for the generic exception branch. -/
def networkErrMsg (name msg : String) : String :=
  "Tushare 接口调用发生网络错误: " ++ name ++ ": " ++ msg

/-- Python `str()` of an optional int (`None` for missing). -/
def pyShowOptInt : Option Int → String
  | some n => toString n
  | none => "None"

/-- Python `str()` of an optional string (`None` for missing). -/
def pyShowOptStr : Option String → String
  | some s => s
  | none => "None"

/-- `f"Tushare 返回错误 code={code}, msg={msg}"`. -/
def businessErrMsg (code : Option Int) (msg : Option String) : String :=
  "Tushare 返回错误 code=" ++ pyShowOptInt code ++ ", msg=" ++ pyShowOptStr msg

/-- An error envelope with `rows=[]`, `fields=null`. -/
def errEnvelope (err : String) (api_name : String) (raw : Option UpstreamResponse) :
    Envelope :=
  { error := some err, api_name := api_name, fields := none, rows := [], raw := raw }

/-- `_call_tushare(api_name, params, fields, token)` with the process
environment token and the transport outcome passed explicitly.  Returns the
envelope together with the payload POSTed upstream (`none` when no network
call was attempted). -/
def callTushare (api_name : String) (params : Option Dict) (fields : Option String)
    (token : Option String) (env : Option String) (transport : TransportResult) :
    Envelope × Option Payload :=
  let token_val := pyOr token env
  if truthyStr token_val = false then
    (errEnvelope tokenMissingMsg api_name none, none)
  else
    let payload : Payload :=
      { api_name := api_name
        token := token_val.getD ""
        params := params.getD []
        fields := if truthyStr fields then fields else none }
    match transport with
    | .timeout => (errEnvelope timeoutMsg api_name none, some payload)
    | .exn n m => (errEnvelope (networkErrMsg n m) api_name none, some payload)
    | .ok data =>
      if data.code ≠ some 0 then
        (errEnvelope (businessErrMsg data.code data.msg) api_name (some data),
          some payload)
      else
        let d := data.data.getD { fields := none, items := none }
        let fields_list := d.fields.getD []
        let items := d.items.getD []
        let rows := items.map (fun row => dictOfZip fields_list row)
        ({ error := none, api_name := api_name, fields := some fields_list,
           rows := rows, raw := some data }, some payload)

/-- The `tushare_query` tool: an unrestricted passthrough to `_call_tushare`. -/
def tushareQuery (api_name : String) (params : Option Dict) (fields : Option String)
    (token : Option String) (env : Option String) (transport : TransportResult) :
    Envelope × Option Payload :=
  callTushare api_name params fields token env transport

/-! ### Listing cache (`_get_stock_basic_all`) -/

/-- The module-level cache slot: `_STOCK_BASIC_CACHE` and
`_STOCK_BASIC_CACHE_TS`. -/
structure CacheState where
  cache : Option (List Dict)
  ts : Option ℤ
  deriving DecidableEq, Repr

def STOCK_BASIC_CACHE_TTL : ℤ := 6 * 3600

def STOCK_BASIC_FIELDS : String :=
  "ts_code,symbol,name,area,industry,market,exchange,list_date"

/-- The params of the cache-refresh call. -/
def listingParams : Dict := [("exchange", .str ""), ("list_status", .str "L")]

/-- `_STOCK_BASIC_CACHE is not None and _STOCK_BASIC_CACHE_TS is not None
and now - _STOCK_BASIC_CACHE_TS < _STOCK_BASIC_CACHE_TTL`. -/
def cacheFresh (st : CacheState) (now : ℤ) : Bool :=
  match st.cache, st.ts with
  | some _, some ts => now - ts < STOCK_BASIC_CACHE_TTL
  | _, _ => false

/-- The synthetic success envelope served on a cache hit. -/
def cacheHitEnvelope (rows : List Dict) : Envelope :=
  { error := none, api_name := "stock_basic",
    fields := some (pySplitComma STOCK_BASIC_FIELDS), rows := rows, raw := none }

/-- The miss/expiry path of `_get_stock_basic_all`: call the wrapper, update
the slot only on success, return the wrapper envelope either way. -/
def refreshStockBasic (st : CacheState) (now : ℤ) (env : Option String)
    (transport : TransportResult) : Envelope × CacheState × Option Payload :=
  let c :=
    callTushare "stock_basic" (some listingParams) (some STOCK_BASIC_FIELDS)
      none env transport
  if c.1.error = none then
    (c.1, { cache := some c.1.rows, ts := some now }, c.2)
  else
    (c.1, st, c.2)

/-- `_get_stock_basic_all()`: serve the cached rows while fresh, otherwise
refresh through `_call_tushare`.  The third component is the payload POSTed
upstream during this call (`none`: no network request). -/
def getStockBasicAll (st : CacheState) (now : ℤ) (env : Option String)
    (transport : TransportResult) : Envelope × CacheState × Option Payload :=
  if cacheFresh st now then
    (cacheHitEnvelope (st.cache.getD []), st, none)
  else
    refreshStockBasic st now env transport

/-! ### `search_stocks` -/

/-- The `{error, rows}` result shape of `search_stocks` and `daily`. -/
structure ToolResult where
  error : Option String
  rows : List Dict
  deriving DecidableEq, Repr

/-- The match test of `search_stocks`: case-insensitive substring of the
(lowered) keyword in `str(row.get("ts_code", ""))` or
`str(row.get("name", ""))`. -/
def rowMatches (kwLower : String) (row : Dict) : Bool :=
  decide (kwLower.data <:+: (pyLower (pyGetStr row "ts_code")).data) ||
  decide (kwLower.data <:+: (pyLower (pyGetStr row "name")).data)

def SEARCH_MAX_ROWS : Nat := 200

/-- `search_stocks(keyword)`: validate, fetch the listing through the cache,
filter case-insensitively, cap at 200 rows. -/
def searchStocks (keyword : String) (st : CacheState) (now : ℤ)
    (env : Option String) (transport : TransportResult) :
    ToolResult × CacheState × Option Payload :=
  let kw := pyStrip keyword
  if kw = "" then
    ({ error := some "keyword 不能为空", rows := [] }, st, none)
  else
    let t := getStockBasicAll st now env transport
    match t.1.error with
    | some e => ({ error := some e, rows := [] }, t.2.1, t.2.2)
    | none =>
      let kwLower := pyLower kw
      let filtered := t.1.rows.filter (fun row => rowMatches kwLower row)
      let capped :=
        if filtered.length > SEARCH_MAX_ROWS then filtered.take SEARCH_MAX_ROWS
        else filtered
      ({ error := none, rows := capped }, t.2.1, t.2.2)

/-! ### `daily` -/

/-- A total order on scalar values modelling the comparisons Python's sort
performs on the `trade_date` keys: strings compare lexically, ints
numerically (cross-constructor comparisons, which would raise in Python,
are ordered by a constructor rank and never arise on homogeneous keys). -/
def valueRank : Value → Nat
  | .null => 0
  | .int _ => 1
  | .str _ => 2

def valueLE (a b : Value) : Bool :=
  match a, b with
  | .str x, .str y => pyStrLE x y
  | .int x, .int y => decide (x ≤ y)
  | .null, .null => true
  | x, y => decide (valueRank x ≤ valueRank y)

/-- The sort key of `daily`: `r.get("trade_date", "")`. -/
def tradeDateKey (row : Dict) : Value := dictGet row "trade_date" (.str "")

/-- `sorted(rows, key=lambda r: r.get("trade_date", ""))`, modelled with
stable insertion sort. -/
def sortByTradeDate (rows : List Dict) : List Dict :=
  List.insertionSort (fun a b => valueLE (tradeDateKey a) (tradeDateKey b) = true) rows

def DAILY_FIELDS : String :=
  "ts_code,trade_date,open,high,low,close,pre_close,change,pct_chg,vol,amount"

def dailyNoDataMsg : String := "指定区间无数据，检查代码或日期是否正确。"

/-- The `_call_tushare` invocation `daily` makes once its inputs validate. -/
def dailyQuery (tsc sd ed : String) (env : Option String)
    (transport : TransportResult) : Envelope :=
  (callTushare "daily"
    (some [("ts_code", .str tsc), ("start_date", .str sd), ("end_date", .str ed)])
    (some DAILY_FIELDS) none env transport).1

/-- `daily(ts_code, start_date, end_date)`: validate, query upstream through
`_call_tushare`, treat empty results as a domain error, sort ascending by
trade date. -/
def daily (ts_code start_date end_date : String) (env : Option String)
    (transport : TransportResult) : ToolResult :=
  let tsc := pyStrip ts_code
  let sd := pyStrip start_date
  let ed := pyStrip end_date
  if tsc = "" then
    { error := some "ts_code 不能为空", rows := [] }
  else if sd = "" ∨ ed = "" then
    { error := some "start_date 和 end_date 不能为空", rows := [] }
  else
    let res := dailyQuery tsc sd ed env transport
    match res.error with
    | some e => { error := some e, rows := [] }
    | none =>
      if res.rows.isEmpty then
        { error := some dailyNoDataMsg, rows := [] }
      else
        { error := none, rows := sortByTradeDate res.rows }

/-! ### Concrete data used in counterexamples and witnesses -/

/-- A `code=0` response whose single item is shorter than its fields list. -/
def raggedResp : UpstreamResponse :=
  { code := some 0, msg := none,
    data := some { fields := some ["a", "b"], items := some [[.str "x"]] } }

/-- A `code=0` response with a present fields list but `items` null/missing. -/
def fieldsOnlyResp : UpstreamResponse :=
  { code := some 0, msg := none,
    data := some { fields := some ["a"], items := none } }

/-- A `code=0` response whose `data` member is null/missing. -/
def noDataResp : UpstreamResponse :=
  { code := some 0, msg := none, data := none }

/-- A listing row as in the spec's search example. -/
def pinganRow : Dict := [("ts_code", .str "000001.SZ"), ("name", .str "平安银行")]

/-- A `code=0` daily-bar response whose rows arrive in descending date
order. -/
def dailyDescResp : UpstreamResponse :=
  { code := some 0, msg := none,
    data := some { fields := some ["ts_code", "trade_date"],
                   items := some [[.str "000001.SZ", .str "20240103"],
                                  [.str "000001.SZ", .str "20240102"]] } }

/-! ### Helper lemmas -/

theorem dictKeys_dictInsert (d : Dict) (k : String) (v : Value) :
    dictKeys (dictInsert d k v) =
      if d.any (fun p => p.1 = k) then dictKeys d else dictKeys d ++ [k] := by
  unfold dictInsert dictKeys
  split
  · rw [List.map_map]
    refine List.map_congr_left ?_
    intro p _
    by_cases h : p.1 = k <;> simp [h, Function.comp]
  · simp

theorem mem_dictKeys_dictInsert (d : Dict) (k k' : String) (v : Value) :
    k' ∈ dictKeys (dictInsert d k v) ↔ k' ∈ dictKeys d ∨ k' = k := by
  rw [dictKeys_dictInsert]
  split
  · rename_i h
    rw [List.any_eq_true] at h
    obtain ⟨p, hp, hpk⟩ := h
    simp only [decide_eq_true_eq] at hpk
    constructor
    · exact Or.inl
    · rintro (h' | rfl)
      · exact h'
      · exact hpk ▸ List.mem_map_of_mem _ hp
  · simp [dictKeys]

theorem mem_dictKeys_foldl (ps : List (String × Value)) (d : Dict) (k : String) :
    k ∈ dictKeys (ps.foldl (fun d p => dictInsert d p.1 p.2) d) ↔
      k ∈ dictKeys d ∨ k ∈ ps.map Prod.fst := by
  induction ps generalizing d with
  | nil => simp
  | cons p ps ih =>
    rw [List.foldl_cons, ih, mem_dictKeys_dictInsert]
    simp [or_assoc, or_comm, or_left_comm]

theorem map_fst_zip_eq_take : ∀ (ks : List String) (vs : List Value),
    (List.zip ks vs).map Prod.fst = ks.take vs.length
  | [], _ => by simp
  | _ :: _, [] => by simp
  | k :: ks, v :: vs => by
    simp [List.zip_cons_cons, map_fst_zip_eq_take ks vs]

/-- The key set of `dict(zip(ks, vs))` is the set of the first
`min(len(ks), len(vs))` names of `ks`. -/
theorem mem_dictKeys_dictOfZip (ks : List String) (vs : List Value) (k : String) :
    k ∈ dictKeys (dictOfZip ks vs) ↔ k ∈ ks.take vs.length := by
  rw [dictOfZip, mem_dictKeys_foldl, map_fst_zip_eq_take]
  simp [dictKeys]

theorem cap_eq_take (l : List Dict) :
    (if l.length > SEARCH_MAX_ROWS then l.take SEARCH_MAX_ROWS else l) =
      l.take SEARCH_MAX_ROWS := by
  split
  · rfl
  · rw [List.take_of_length_le (by omega)]

theorem charListLE_total : ∀ as bs, charListLE as bs = true ∨ charListLE bs as = true
  | [], _ => by left; rfl
  | _ :: _, [] => by right; rfl
  | a :: as, b :: bs => by
    rcases charListLE_total as bs with h | h <;>
      simp only [charListLE] <;> split_ifs <;> simp_all

theorem charListLE_trans : ∀ as bs cs, charListLE as bs = true →
    charListLE bs cs = true → charListLE as cs = true
  | [], _, _ => by intro _ _; rfl
  | _ :: _, [], _ => by intro h _; cases h
  | _ :: _, _ :: _, [] => by intro _ h; cases h
  | a :: as, b :: bs, c :: cs => by
    intro h1 h2
    simp only [charListLE] at h1 h2 ⊢
    split_ifs at h1 h2 ⊢ <;> try omega
    all_goals first
      | rfl
      | exact charListLE_trans as bs cs h1 h2

theorem valueLE_total (a b : Value) : valueLE a b = true ∨ valueLE b a = true := by
  cases a <;> cases b <;> simp [valueLE, valueRank, pyStrLE]
  all_goals first
    | apply charListLE_total
    | exact Int.le_total _ _

theorem valueLE_trans (a b c : Value) (h1 : valueLE a b = true)
    (h2 : valueLE b c = true) : valueLE a c = true := by
  cases a <;> cases b <;> cases c <;>
    simp_all only [valueLE, valueRank, pyStrLE, decide_eq_true_eq] <;>
    first
      | rfl
      | omega
      | exact charListLE_trans _ _ _ h1 h2

/-- Whatever the refresh outcome, `_get_stock_basic_all`'s miss path sends
exactly the payload `_call_tushare` sends. -/
theorem refreshStockBasic_payload (st : CacheState) (now : ℤ) (env : Option String)
    (transport : TransportResult) :
    (refreshStockBasic st now env transport).2.2 =
      (callTushare "stock_basic" (some listingParams) (some STOCK_BASIC_FIELDS)
        none env transport).2 := by
  unfold refreshStockBasic
  dsimp only
  split <;> rfl

/-- With a truthy resolved token, `_call_tushare` always POSTs one payload,
of this exact shape. -/
theorem callTushare_payload_of_truthy (api_name : String) (params : Option Dict)
    (fields : Option String) (token env : Option String)
    (transport : TransportResult) (h : truthyStr (pyOr token env) = true) :
    (callTushare api_name params fields token env transport).2 =
      some { api_name := api_name, token := (pyOr token env).getD "",
             params := params.getD [],
             fields := if truthyStr fields then fields else none } := by
  cases transport <;> simp [callTushare, h] <;> split <;> rfl

/-- The sort `daily` applies always yields a list that is non-decreasing
under the trade-date key order. -/
theorem sorted_sortByTradeDate (rows : List Dict) :
    List.Sorted (fun a b => valueLE (tradeDateKey a) (tradeDateKey b) = true)
      (sortByTradeDate rows) := by
  haveI : IsTotal Dict (fun a b => valueLE (tradeDateKey a) (tradeDateKey b) = true) :=
    ⟨fun a b => valueLE_total _ _⟩
  haveI : IsTrans Dict (fun a b => valueLE (tradeDateKey a) (tradeDateKey b) = true) :=
    ⟨fun a b c => valueLE_trans _ _ _⟩
  exact List.sorted_insertionSort _ rows

/-! ### Claim theorems -/

/-- C5: for every call to `_call_tushare` where no per-call token is supplied
and no process-wide token is configured, the result is an envelope whose
error is the configuration message and whose rows list is empty, and no
upstream network call is attempted (the returned payload is `none`). -/
theorem c5_no_token_config_error (api_name : String) (params : Option Dict)
    (fields : Option String) (transport : TransportResult) :
    (callTushare api_name params fields none none transport).1.error =
        some tokenMissingMsg ∧
    (callTushare api_name params fields none none transport).1.rows = [] ∧
    (callTushare api_name params fields none none transport).2 = none :=
  ⟨rfl, rfl, rfl⟩

/-- C9: a per-call token that is the empty string is never used: token
resolution tests Python truthiness, so `_call_tushare` (and hence
`tushare_query`) behaves exactly as if no per-call token were supplied —
it falls back to the environment token, and when that is also absent it
returns the configuration error without sending any payload upstream. -/
theorem c9_empty_token_falls_back (api_name : String) (params : Option Dict)
    (fields : Option String) (env : Option String) (transport : TransportResult) :
    tushareQuery api_name params fields (some "") env transport =
        callTushare api_name params fields none env transport ∧
    (callTushare api_name params fields (some "") none transport).1.error =
        some tokenMissingMsg ∧
    (callTushare api_name params fields (some "") none transport).2 = none :=
  ⟨rfl, rfl, rfl⟩

/-- C8: for every keyword that is empty or whitespace-only (i.e. strips to
the empty string), `search_stocks` returns a validation-error result with
`rows = []`, leaves the cache slot untouched, and attempts no upstream
call. -/
theorem c8_blank_keyword_rejected (keyword : String) (st : CacheState) (now : ℤ)
    (env : Option String) (transport : TransportResult)
    (h : pyStrip keyword = "") :
    searchStocks keyword st now env transport =
      ({ error := some "keyword 不能为空", rows := [] }, st, none) := by
  simp [searchStocks, h]

theorem c8_blank_keyword_rejected_witness :
    pyStrip "   " = "" ∧
    searchStocks "   " ⟨none, none⟩ 0 none .timeout =
      ({ error := some "keyword 不能为空", rows := [] }, ⟨none, none⟩, none) :=
  ⟨by decide, c8_blank_keyword_rejected "   " ⟨none, none⟩ 0 none .timeout (by decide)⟩

/-- C2: every envelope produced by `_call_tushare` satisfies the invariant
that a non-null error comes with `rows = []` and `fields = null`; and for
any upstream response with a nonzero business code the envelope has
`rows = []` and a non-null error string. -/
theorem c2_error_envelope_invariant (api_name : String) (params : Option Dict)
    (fields : Option String) (token env : Option String)
    (transport : TransportResult) :
    ((callTushare api_name params fields token env transport).1.error ≠ none →
      (callTushare api_name params fields token env transport).1.rows = [] ∧
      (callTushare api_name params fields token env transport).1.fields = none) ∧
    (∀ resp : UpstreamResponse, transport = .ok resp → resp.code ≠ some 0 →
      (callTushare api_name params fields token env transport).1.error ≠ none ∧
      (callTushare api_name params fields token env transport).1.rows = []) := by
  refine ⟨?_, ?_⟩
  · intro herr
    by_cases htv : truthyStr (pyOr token env) = false
    · simp [callTushare, htv, errEnvelope]
    · cases transport with
      | timeout => simp [callTushare, htv, errEnvelope]
      | exn n m => simp [callTushare, htv, errEnvelope]
      | ok data =>
        by_cases hc : data.code = some 0
        · exact absurd (by simp [callTushare, htv, hc]) herr
        · simp [callTushare, htv, hc, errEnvelope]
  · rintro resp rfl hcode
    by_cases htv : truthyStr (pyOr token env) = false
    · simp [callTushare, htv, errEnvelope, tokenMissingMsg]
    · simp [callTushare, htv, hcode, errEnvelope]

theorem c2_error_envelope_invariant_witness :
    ((callTushare "stock_basic" none none (some "t") none
        (.ok ⟨some 40001, some "token invalid", none⟩)).1.rows = [] ∧
      (callTushare "stock_basic" none none (some "t") none
        (.ok ⟨some 40001, some "token invalid", none⟩)).1.fields = none) ∧
    ((callTushare "stock_basic" none none (some "t") none
        (.ok ⟨some 40001, some "token invalid", none⟩)).1.error ≠ none ∧
      (callTushare "stock_basic" none none (some "t") none
        (.ok ⟨some 40001, some "token invalid", none⟩)).1.rows = []) :=
  ⟨(c2_error_envelope_invariant "stock_basic" none none (some "t") none
      (.ok ⟨some 40001, some "token invalid", none⟩)).1 (by decide),
    (c2_error_envelope_invariant "stock_basic" none none (some "t") none
      (.ok ⟨some 40001, some "token invalid", none⟩)).2
      ⟨some 40001, some "token invalid", none⟩ rfl (by decide)⟩

/-- C1 counterexample: on the `code=0` response with `fields=["a","b"]` and
`items=[["x"]]`, `zip` truncates, so the single row's key set is `{"a"}`
and does not equal the upstream fields list (it misses `"b"`). -/
theorem c1_counterexample :
    (callTushare "t" none none (some "tok") none (.ok raggedResp)).1.error = none ∧
    (callTushare "t" none none (some "tok") none (.ok raggedResp)).1.fields =
      some ["a", "b"] ∧
    (callTushare "t" none none (some "tok") none (.ok raggedResp)).1.rows =
      [[("a", Value.str "x")]] ∧
    "b" ∉ dictKeys [("a", Value.str "x")] ∧ "b" ∈ (["a", "b"] : List String) := by
  refine ⟨rfl, rfl, rfl, by decide, by decide⟩

/-- C1 (amended): for every upstream response accepted with business code 0
(seen by a call holding a truthy token), the envelope has `error = null`,
its rows list has exactly `len(items)` entries, and the key set of each row
equals the set of the first `min(len(fields), len(item))` entries of the
upstream fields list — the zip of field names against the item's values
truncates to the shorter list. -/
theorem c1_amended_rows_from_zip (api_name : String) (params : Option Dict)
    (fields : Option String) (token env : Option String) (resp : UpstreamResponse)
    (htok : truthyStr (pyOr token env) = true) (hcode : resp.code = some 0) :
    (callTushare api_name params fields token env (.ok resp)).1.error = none ∧
    (callTushare api_name params fields token env (.ok resp)).1.rows.length =
      ((resp.data.getD ⟨none, none⟩).items.getD []).length ∧
    ∀ i, i < ((resp.data.getD ⟨none, none⟩).items.getD []).length → ∀ k,
      (k ∈ dictKeys
          ((callTushare api_name params fields token env (.ok resp)).1.rows.getD i []) ↔
        k ∈ ((resp.data.getD ⟨none, none⟩).fields.getD []).take
          (((resp.data.getD ⟨none, none⟩).items.getD []).getD i []).length) := by
  have hnf : ¬ truthyStr (pyOr token env) = false := by simp [htok]
  refine ⟨by simp [callTushare, hnf, hcode], by simp [callTushare, hnf, hcode], ?_⟩
  intro i hi k
  have hrows : (callTushare api_name params fields token env (.ok resp)).1.rows =
      ((resp.data.getD ⟨none, none⟩).items.getD []).map
        (fun row => dictOfZip ((resp.data.getD ⟨none, none⟩).fields.getD []) row) := by
    simp [callTushare, hnf, hcode]
  rw [hrows]
  rw [List.getD_eq_getElem?_getD, List.getElem?_map]
  rw [List.getElem?_eq_getElem hi]
  simp only [Option.map_some', Option.getD_some]
  rw [mem_dictKeys_dictOfZip]
  rw [List.getD_eq_getElem?_getD, List.getElem?_eq_getElem hi, Option.getD_some]

theorem c1_amended_rows_from_zip_witness :
    truthyStr (pyOr (some "tok") none) = true ∧
    raggedResp.code = some 0 ∧
    (0 : Nat) < ((raggedResp.data.getD ⟨none, none⟩).items.getD []).length ∧
    ((callTushare "t" none none (some "tok") none (.ok raggedResp)).1.error = none ∧
      (callTushare "t" none none (some "tok") none (.ok raggedResp)).1.rows.length =
        ((raggedResp.data.getD ⟨none, none⟩).items.getD []).length ∧
      ∀ i, i < ((raggedResp.data.getD ⟨none, none⟩).items.getD []).length → ∀ k,
        (k ∈ dictKeys
            ((callTushare "t" none none (some "tok") none (.ok raggedResp)).1.rows.getD i []) ↔
          k ∈ ((raggedResp.data.getD ⟨none, none⟩).fields.getD []).take
            (((raggedResp.data.getD ⟨none, none⟩).items.getD []).getD i []).length)) :=
  ⟨by decide, rfl, by decide,
    c1_amended_rows_from_zip "t" none none (some "tok") none raggedResp (by decide) rfl⟩

/-- C10 counterexample: on the `code=0` response with `fields=["a"]` present
and `items` null, the claim demands `fields` equal to the empty list, but
the wrapper keeps the non-empty fields list (`rows` is `[]`, though). -/
theorem c10_counterexample :
    (callTushare "t" none none (some "tok") none (.ok fieldsOnlyResp)).1.fields =
      some ["a"] ∧
    (some ["a"] : Option (List String)) ≠ some [] := by
  exact ⟨rfl, by decide⟩

/-- C10 (amended): for every `code=0` response (seen with a truthy token),
`_call_tushare` returns a success envelope with `error = null` and a
non-null `fields`; if the `data` payload is null/missing then `rows = []`
and `fields = []`; if the `items` list is null/missing then `rows = []`;
and if the `fields` list is null/missing then `fields = []` (not null).
An empty result at the wrapper level is never itself an error.  (The
original claim's stronger reading fails: a null `items` list does not
force `fields = []`, and a null `fields` list with non-empty `items`
yields rows of empty mappings rather than `rows = []`.) -/
theorem c10_amended_empty_success (api_name : String) (params : Option Dict)
    (fields : Option String) (token env : Option String) (resp : UpstreamResponse)
    (htok : truthyStr (pyOr token env) = true) (hcode : resp.code = some 0) :
    (callTushare api_name params fields token env (.ok resp)).1.error = none ∧
    (callTushare api_name params fields token env (.ok resp)).1.fields ≠ none ∧
    (resp.data = none →
      (callTushare api_name params fields token env (.ok resp)).1.rows = [] ∧
      (callTushare api_name params fields token env (.ok resp)).1.fields = some []) ∧
    ((resp.data.getD ⟨none, none⟩).items = none →
      (callTushare api_name params fields token env (.ok resp)).1.rows = []) ∧
    ((resp.data.getD ⟨none, none⟩).fields = none →
      (callTushare api_name params fields token env (.ok resp)).1.fields = some []) := by
  have hnf : ¬ truthyStr (pyOr token env) = false := by simp [htok]
  refine ⟨by simp [callTushare, hnf, hcode], by simp [callTushare, hnf, hcode],
    ?_, ?_, ?_⟩
  · intro hd
    simp [callTushare, hnf, hcode, hd]
  · intro hi
    simp [callTushare, hnf, hcode, hi]
  · intro hf
    simp [callTushare, hnf, hcode, hf]

theorem c10_amended_empty_success_witness :
    truthyStr (pyOr (some "tok") none) = true ∧
    noDataResp.code = some 0 ∧
    noDataResp.data = none ∧
    ((callTushare "t" none none (some "tok") none (.ok noDataResp)).1.rows = [] ∧
      (callTushare "t" none none (some "tok") none (.ok noDataResp)).1.fields =
        some []) :=
  ⟨by decide, rfl, rfl,
    (c10_amended_empty_success "t" none none (some "tok") none noDataResp
      (by decide) rfl).2.2.1 rfl⟩

/-- C3: while the cache is populated and less than 6 hours old, a listing
fetch returns the cached rows themselves in a synthetic success envelope
with `raw = null` and performs no upstream call; when the cache is absent
or 6+ hours old (and a token is configured), the fetch POSTs exactly one
upstream request, carrying the listing parameters. -/
theorem c3_cache_freshness (st : CacheState) (now : ℤ) (env : Option String)
    (transport : TransportResult) :
    (∀ rows ts, st.cache = some rows → st.ts = some ts →
      now - ts < STOCK_BASIC_CACHE_TTL →
      getStockBasicAll st now env transport = (cacheHitEnvelope rows, st, none)) ∧
    (cacheFresh st now = false → truthyStr env = true →
      (getStockBasicAll st now env transport).2.2 =
        some { api_name := "stock_basic", token := env.getD "",
               params := listingParams, fields := some STOCK_BASIC_FIELDS }) := by
  constructor
  · intro rows ts hc hts hfresh
    have h : cacheFresh st now = true := by
      simp [cacheFresh, hc, hts, hfresh]
    simp [getStockBasicAll, h, hc]
  · intro hstale henv
    have henv' : truthyStr (pyOr none env) = true := by
      simpa [pyOr, truthyStr] using henv
    have hfld : truthyStr (some STOCK_BASIC_FIELDS) = true := by decide
    have hmiss : getStockBasicAll st now env transport =
        refreshStockBasic st now env transport := by
      simp [getStockBasicAll, hstale]
    rw [hmiss, refreshStockBasic_payload,
      callTushare_payload_of_truthy _ _ _ _ _ _ henv']
    simp [pyOr, truthyStr, hfld]
    decide

theorem c3_cache_freshness_witness :
    ((⟨some [pinganRow], some 0⟩ : CacheState).cache = some [pinganRow] ∧
      (⟨some [pinganRow], some 0⟩ : CacheState).ts = some 0 ∧
      (0 : ℤ) - 0 < STOCK_BASIC_CACHE_TTL ∧
      getStockBasicAll ⟨some [pinganRow], some 0⟩ 0 (some "tok") .timeout =
        (cacheHitEnvelope [pinganRow], ⟨some [pinganRow], some 0⟩, none)) ∧
    (cacheFresh ⟨none, none⟩ 0 = false ∧ truthyStr (some "tok") = true ∧
      (getStockBasicAll ⟨none, none⟩ 0 (some "tok") .timeout).2.2 =
        some { api_name := "stock_basic", token := "tok",
               params := listingParams, fields := some STOCK_BASIC_FIELDS }) :=
  ⟨⟨rfl, rfl, by decide,
      (c3_cache_freshness ⟨some [pinganRow], some 0⟩ 0 (some "tok") .timeout).1
        [pinganRow] 0 rfl rfl (by decide)⟩,
    ⟨rfl, rfl,
      (c3_cache_freshness ⟨none, none⟩ 0 (some "tok") .timeout).2 rfl rfl⟩⟩

/-- C4: when a listing-cache refresh attempt gets a failure envelope from
the wrapper, the cache slot and its timestamp are left unchanged and the
failure envelope is returned as-is; the slot and timestamp are replaced
(with the fetched rows and the current time) only on a successful fetch. -/
theorem c4_failed_refresh_keeps_cache (st : CacheState) (now : ℤ)
    (env : Option String) (transport : TransportResult)
    (hstale : cacheFresh st now = false) :
    ((callTushare "stock_basic" (some listingParams) (some STOCK_BASIC_FIELDS)
          none env transport).1.error ≠ none →
      getStockBasicAll st now env transport =
        ((callTushare "stock_basic" (some listingParams) (some STOCK_BASIC_FIELDS)
            none env transport).1,
          st,
          (callTushare "stock_basic" (some listingParams) (some STOCK_BASIC_FIELDS)
            none env transport).2)) ∧
    ((callTushare "stock_basic" (some listingParams) (some STOCK_BASIC_FIELDS)
          none env transport).1.error = none →
      getStockBasicAll st now env transport =
        ((callTushare "stock_basic" (some listingParams) (some STOCK_BASIC_FIELDS)
            none env transport).1,
          ⟨some (callTushare "stock_basic" (some listingParams)
              (some STOCK_BASIC_FIELDS) none env transport).1.rows, some now⟩,
          (callTushare "stock_basic" (some listingParams) (some STOCK_BASIC_FIELDS)
            none env transport).2)) := by
  constructor
  · intro herr
    simp [getStockBasicAll, hstale, refreshStockBasic, herr]
  · intro hok
    simp [getStockBasicAll, hstale, refreshStockBasic, hok]

theorem c4_failed_refresh_keeps_cache_witness :
    cacheFresh ⟨some [pinganRow], some 0⟩ 100000 = false ∧
    (callTushare "stock_basic" (some listingParams) (some STOCK_BASIC_FIELDS)
        none (some "tok") .timeout).1.error ≠ none ∧
    getStockBasicAll ⟨some [pinganRow], some 0⟩ 100000 (some "tok") .timeout =
      ((callTushare "stock_basic" (some listingParams) (some STOCK_BASIC_FIELDS)
          none (some "tok") .timeout).1,
        ⟨some [pinganRow], some 0⟩,
        (callTushare "stock_basic" (some listingParams) (some STOCK_BASIC_FIELDS)
          none (some "tok") .timeout).2) :=
  ⟨by decide, by decide,
    (c4_failed_refresh_keeps_cache ⟨some [pinganRow], some 0⟩ 100000 (some "tok")
      .timeout (by decide)).1 (by decide)⟩

/-- C6: for every keyword that strips to a non-empty string and every
successfully obtained listing, `search_stocks` returns a success result and
exactly those listing rows whose (stringified) `ts_code` or `name` field
contains the lowered keyword as a case-insensitive substring — in listing
order (`filter` preserves it), truncated to the first 200 matches; and the
row `{ts_code: "000001.SZ", name: "平安银行"}` is matched by keyword
`"000001"`. -/
theorem c6_search_filter_cap (keyword : String) (st : CacheState) (now : ℤ)
    (env : Option String) (transport : TransportResult)
    (hkw : pyStrip keyword ≠ "")
    (hok : (getStockBasicAll st now env transport).1.error = none) :
    (searchStocks keyword st now env transport).1.error = none ∧
    (searchStocks keyword st now env transport).1.rows =
      ((getStockBasicAll st now env transport).1.rows.filter
        (fun row => rowMatches (pyLower (pyStrip keyword)) row)).take
        SEARCH_MAX_ROWS ∧
    rowMatches (pyLower (pyStrip "000001")) pinganRow = true := by
  unfold searchStocks
  dsimp only
  rw [if_neg hkw, hok]
  dsimp only
  exact ⟨rfl, cap_eq_take _, by decide⟩

theorem c6_search_filter_cap_witness :
    pyStrip "000001" ≠ "" ∧
    (getStockBasicAll ⟨some [pinganRow], some 0⟩ 0 (some "tok") .timeout).1.error =
      none ∧
    ((searchStocks "000001" ⟨some [pinganRow], some 0⟩ 0 (some "tok")
        .timeout).1.error = none ∧
      (searchStocks "000001" ⟨some [pinganRow], some 0⟩ 0 (some "tok")
          .timeout).1.rows =
        ((getStockBasicAll ⟨some [pinganRow], some 0⟩ 0 (some "tok")
            .timeout).1.rows.filter
          (fun row => rowMatches (pyLower (pyStrip "000001")) row)).take
          SEARCH_MAX_ROWS ∧
      rowMatches (pyLower (pyStrip "000001")) pinganRow = true) :=
  ⟨by decide, by decide,
    c6_search_filter_cap "000001" ⟨some [pinganRow], some 0⟩ 0 (some "tok")
      .timeout (by decide) (by decide)⟩

/-- C7: every successful `daily` result is non-decreasing in the
`trade_date` key; restricted to string-valued keys (the `YYYYMMDD` dates)
that order is exactly Python's lexical string order; and on the concrete
upstream response delivering dates `["20240103", "20240102"]` the output
dates are `["20240102", "20240103"]`. -/
theorem c7_daily_sorted_by_date (ts_code start_date end_date : String)
    (env : Option String) (transport : TransportResult)
    (hok : (daily ts_code start_date end_date env transport).error = none) :
    List.Sorted (fun a b => valueLE (tradeDateKey a) (tradeDateKey b) = true)
      (daily ts_code start_date end_date env transport).rows ∧
    (∀ a b : String, valueLE (.str a) (.str b) = pyStrLE a b) ∧
    (daily "000001.SZ" "20240101" "20240131" (some "tok")
        (.ok dailyDescResp)).rows.map tradeDateKey =
      [.str "20240102", .str "20240103"] := by
  refine ⟨?_, fun a b => rfl, by decide⟩
  by_cases h1 : pyStrip ts_code = ""
  · simp [daily, h1] at hok
  by_cases h2 : pyStrip start_date = ""
  · simp [daily, h1, h2] at hok
  by_cases h3 : pyStrip end_date = ""
  · simp [daily, h1, h2, h3] at hok
  cases hres : (dailyQuery (pyStrip ts_code) (pyStrip start_date)
      (pyStrip end_date) env transport).error with
  | some e => simp [daily, h1, h2, h3, hres] at hok
  | none =>
    by_cases hne : (dailyQuery (pyStrip ts_code) (pyStrip start_date)
        (pyStrip end_date) env transport).rows.isEmpty
    · simp [daily, h1, h2, h3, hres, hne] at hok
    · have hrows : (daily ts_code start_date end_date env transport).rows =
          sortByTradeDate (dailyQuery (pyStrip ts_code) (pyStrip start_date)
            (pyStrip end_date) env transport).rows := by
        simp [daily, h1, h2, h3, hres, hne]
      rw [hrows]
      exact sorted_sortByTradeDate _

theorem c7_daily_sorted_by_date_witness :
    (daily "000001.SZ" "20240101" "20240131" (some "tok")
        (.ok dailyDescResp)).error = none ∧
    (List.Sorted (fun a b => valueLE (tradeDateKey a) (tradeDateKey b) = true)
        (daily "000001.SZ" "20240101" "20240131" (some "tok")
          (.ok dailyDescResp)).rows ∧
      (∀ a b : String, valueLE (.str a) (.str b) = pyStrLE a b) ∧
      (daily "000001.SZ" "20240101" "20240131" (some "tok")
          (.ok dailyDescResp)).rows.map tradeDateKey =
        [.str "20240102", .str "20240103"]) :=
  ⟨by decide,
    c7_daily_sorted_by_date "000001.SZ" "20240101" "20240131" (some "tok")
      (.ok dailyDescResp) (by decide)⟩

end Tushare
